import Mathlib

/-!
Verification development for the Protegrity developer-edition chat stack.

The definitions below are a shallow embedding of the Python sources:

- backend/apps/core/protegrity_service.py   (class ProtegrityService)
- app/backend/apps/core/tool_router.py      (execute_tool_calls and helpers)
- app/backend/apps/core/orchestrator.py     (class ChatOrchestrator)

Text is modelled as List Char so that Python slice semantics
(text[a:b] with clamping) coincide with List.take / List.drop.
Risk scores are rationals; only their ordering matters to the code.
The external REST backends (semantic guardrail, data discovery) and the
LLM provider are oracles supplied through an environment record.  The
data-discovery oracle is indexed by an invocation counter, which both lets
distinct calls in one run behave differently (the real service is remote
and stateful) and serves as instrumentation counting discovery calls.
-/

/-- Direction of a guardrail scan: the message dict sent to the REST API
uses from/to user/ai (protegrity_service.py lines 83-96). -/
inductive Direction where
  | userToAi
  | aiToUser
deriving DecidableEq

/-- Behaviour of the semantic-guardrail backend on one request.
ok score models a 200 response whose first message carries the given
score; err models both a non-200 status and a RequestException, which
check_guardrails handles identically (outcome error, risk 0.0). -/
inductive GuardResp where
  | ok (score : ℚ)
  | err
deriving DecidableEq

/-- A raw detection as parsed from the classification response:
det.score, det.location.start_index, det.location.end_index
(protegrity_service.py lines 183-191). -/
structure RawDet where
  score : ℚ
  startIndex : Nat
  endIndex : Nat
deriving DecidableEq

/-- Behaviour of the data-discovery backend on one invocation.
apiError models a RequestException or a non-200 status, which
discover_entities handles by returning an empty dict (lines 195-201);
raiseE models a malformed 200 response on which the parsing code raises
an exception that escapes discover_entities; ok carries the parsed
classifications dict as an ordered association list. -/
inductive DOutcome where
  | raiseE (msg : List Char)
  | apiError
  | ok (cls : List (String × List RawDet))
deriving DecidableEq

/-- A transformed detection (protegrity_service.py lines 183-192): the
nested location dict is flattened to startIndex/endIndex and entity_text
is the slice text[start_index:end_index]. -/
structure Det where
  score : ℚ
  startIndex : Nat
  endIndex : Nat
  entityText : List Char
deriving DecidableEq

/-- The dict returned by discover_entities: entity type to detections,
in insertion order. -/
def Discovery := List (String × List Det)
deriving DecidableEq

/-- Result of check_guardrails. The constant policy_signals list and the
raw details payload are omitted: no modelled behaviour reads them. -/
structure GuardResult where
  outcome : String
  riskScore : ℚ
deriving DecidableEq

/-- Metadata returned by redact_data (and protect_data). The method key
is the constant redact on every success path and absent on the error
path; error holds str(exc) on the error path. -/
structure RedactMeta where
  success : Bool
  entitiesFound : Nat
  entities : Option Discovery
  error : Option (List Char)
deriving DecidableEq

/-- One replacement record built by redact_data (lines 248-253); the
source keys are start, end, type, original. -/
structure Repl where
  start : Nat
  stop : Nat
  etype : String
  original : List Char
deriving DecidableEq

/-- A Python exception crossing a modelled boundary.  attrErr is the
AttributeError raised when a missing service method is looked up;
notImpl is the NotImplementedError raised by the protegrity dispatch for
an unknown tool id; exc covers exceptions escaping the discovery parser.
The carried text is str(exc). -/
inductive Exc where
  | attrErr (msg : List Char)
  | notImpl (msg : List Char)
  | exc (msg : List Char)
deriving DecidableEq

/-- Message of a Python exception, as str(exc) renders it. -/
def excMessage : Exc → List Char
  | Exc.attrErr m => m
  | Exc.notImpl m => m
  | Exc.exc m => m

/-- Environment of the safety service: the guardrail threshold (read from
PROTEGRITY_GUARDRAIL_THRESHOLD, default 0.8), the guardrail backend and
the discovery backend.  The discovery oracle is indexed by the invocation
counter. -/
structure ServiceEnv where
  threshold : ℚ
  guard : Direction → List Char → GuardResp
  disc : Nat → DOutcome

/-- Python dict assignment d[k] = v on an ordered association list:
an existing key keeps its position and gets the new value, a new key is
appended. -/
def pyInsert {α : Type} : List (String × α) → String → α → List (String × α)
  | [], k, v => [(k, v)]
  | (k', v') :: rest, k, v =>
      if k' = k then (k', v) :: rest else (k', v') :: pyInsert rest k v

/-- Entity-type mapping entity_map.get(entity_type, entity_type)
(protegrity_service.py lines 41-59). -/
def entityMap (t : String) : String :=
  if t = "US_SSN" then "SSN"
  else if t = "SOCIAL_SECURITY_NUMBER" then "SSN"
  else if t = "EMAIL_ADDRESS" then "EMAIL"
  else if t = "PHONE_NUMBER" then "PHONE"
  else if t = "CREDIT_CARD" then "CREDIT_CARD"
  else if t = "PERSON" then "PERSON"
  else if t = "US_DRIVER_LICENSE" then "DRIVER_LICENSE"
  else if t = "US_PASSPORT" then "PASSPORT"
  else if t = "IP_ADDRESS" then "IP_ADDRESS"
  else if t = "IBAN_CODE" then "IBAN"
  else if t = "MEDICAL_LICENSE" then "MEDICAL_LICENSE"
  else if t = "DATE_TIME" then "DATE"
  else if t = "LOCATION" then "LOCATION"
  else if t = "CITY" then "CITY"
  else if t = "STATE" then "STATE"
  else if t = "AGE" then "AGE"
  else if t = "USERNAME" then "USERNAME"
  else t

/-- Python slice text[a:b] on a character list (clamping, empty when
b is at or before a). -/
def pySlice (text : List Char) (a b : Nat) : List Char :=
  (text.drop a).take (b - a)

/-- check_guardrails (protegrity_service.py lines 63-139): outcome is
rejected iff the message risk strictly exceeds the threshold; any
backend failure degrades to outcome error with risk 0.0. -/
def check_guardrails (env : ServiceEnv) (dir : Direction) (text : List Char) : GuardResult :=
  match env.guard dir text with
  | GuardResp.ok score =>
      { outcome := if score > env.threshold then "rejected" else "accepted"
        riskScore := score }
  | GuardResp.err => { outcome := "error", riskScore := 0 }

/-- Transformation of a classifications payload into the discovery dict
(protegrity_service.py lines 179-193): each entity type is mapped
through entityMap and each detection gets entity_text sliced from the
input text.  Distinct raw types mapping to one target type overwrite
each other exactly as repeated dict assignment does. -/
def transformCls (text : List Char) (cls : List (String × List RawDet)) : Discovery :=
  cls.foldl
    (fun acc p =>
      pyInsert acc (entityMap p.1)
        (p.2.map (fun d =>
          { score := d.score
            startIndex := d.startIndex
            endIndex := d.endIndex
            entityText := pySlice text d.startIndex d.endIndex })))
    []

/-- discover_entities (protegrity_service.py lines 141-201).  The pair
component is the updated invocation counter; the counter advances on
every invocation, whether or not the call raises. -/
def discover_entities (env : ServiceEnv) (text : List Char) (n : Nat) :
    Except Exc Discovery × Nat :=
  match env.disc n with
  | DOutcome.raiseE m => (Except.error (Exc.exc m), n + 1)
  | DOutcome.apiError => (Except.ok [], n + 1)
  | DOutcome.ok cls => (Except.ok (transformCls text cls), n + 1)

/-- One redaction step (protegrity_service.py lines 261-267):
redacted_text[:start] + "[" + type + "]" + redacted_text[end:]. -/
def substOne (t : List Char) (r : Repl) : List Char :=
  t.take r.start ++ ('[' :: r.etype.toList ++ [']']) ++ t.drop r.stop

/-- The flat replacement list built from the discovery dict
(protegrity_service.py lines 243-254), in dict insertion order. -/
def flattenRepls (entities : Discovery) : List Repl :=
  entities.foldl
    (fun acc p =>
      acc ++ p.2.map (fun d =>
        { start := d.startIndex
          stop := d.endIndex
          etype := p.1
          original := d.entityText }))
    []

/-- Ordering used by replacements.sort(key=lambda x: x.start,
reverse=True): a before b iff b.start is at most a.start; a stable sort
with this relation is exactly Python's stable descending sort. -/
def replGE (a b : Repl) : Prop := b.start ≤ a.start

instance : DecidableRel replGE := fun a b => Nat.decLe b.start a.start

/-- redact_data (protegrity_service.py lines 221-278).  The try block
catches every exception, so the function itself never raises; an
exception from the inner discovery call yields the original text with
success false.  An empty dict (Python falsy) short-circuits with zero
entities. -/
def redact_data (env : ServiceEnv) (text : List Char) (n : Nat) :
    (List Char × RedactMeta) × Nat :=
  match discover_entities env text n with
  | (Except.error e, n') =>
      ((text, { success := false, entitiesFound := 0, entities := none
                error := some (excMessage e) }), n')
  | (Except.ok entities, n') =>
      if entities.isEmpty then
        ((text, { success := true, entitiesFound := 0, entities := none
                  error := none }), n')
      else
        let replacements := flattenRepls entities
        let sorted := List.insertionSort replGE replacements
        let redactedText := sorted.foldl substOne text
        ((redactedText,
          { success := true, entitiesFound := replacements.length
            entities := some entities, error := none }), n')

/-- protect_data (protegrity_service.py lines 203-219): tokenization is
unavailable in the developer edition, so this is redact_data. -/
def protect_data (env : ServiceEnv) (text : List Char) (n : Nat) :
    (List Char × RedactMeta) × Nat :=
  redact_data env text n

/-- Result dict of process_full_pipeline.  The keys initialised to empty
dicts are modelled as Options with none for the untouched state. -/
structure PipelineResult where
  originalText : List Char
  processedText : Option (List Char)
  shouldBlock : Bool
  guardrails : GuardResult
  discovery : Option Discovery
  protection : Option RedactMeta
  redaction : Option RedactMeta
  mode : String
deriving DecidableEq

/-- process_full_pipeline (protegrity_service.py lines 280-339).  A
rejected guardrail outcome returns immediately with processed_text None
and no discovery call; otherwise discovery runs (an exception there
propagates out of the method), then the mode selects protection,
redaction, or no transform.  In protect mode an empty (falsy) protected
text leaves processed_text at the original text. -/
def process_full_pipeline (env : ServiceEnv) (text : List Char) (mode : String) (n : Nat) :
    Except Exc PipelineResult × Nat :=
  let guardrails := check_guardrails env Direction.userToAi text
  if guardrails.outcome = "rejected" then
    (Except.ok
      { originalText := text, processedText := none, shouldBlock := true
        guardrails := guardrails, discovery := none, protection := none
        redaction := none, mode := mode }, n)
  else
    match discover_entities env text n with
    | (Except.error e, n₁) => (Except.error e, n₁)
    | (Except.ok discovery, n₁) =>
      if mode = "protect" then
        let r := protect_data env text n₁
        let protectedText := r.1.1
        (Except.ok
          { originalText := text
            processedText := some (if protectedText.isEmpty then text else protectedText)
            shouldBlock := false, guardrails := guardrails
            discovery := some discovery, protection := some r.1.2
            redaction := none, mode := mode }, r.2)
      else if mode = "redact" then
        let r := redact_data env text n₁
        (Except.ok
          { originalText := text, processedText := some r.1.1
            shouldBlock := false, guardrails := guardrails
            discovery := some discovery, protection := none
            redaction := some r.1.2, mode := mode }, r.2)
      else
        (Except.ok
          { originalText := text, processedText := some text
            shouldBlock := false, guardrails := guardrails
            discovery := some discovery, protection := none
            redaction := none, mode := mode }, n₁)

/-- Result dict of process_llm_response. -/
structure LlmRespResult where
  originalResponse : List Char
  processedResponse : List Char
  shouldFilter : Bool
  guardrails : GuardResult
  discovery : Discovery
  redaction : RedactMeta
deriving DecidableEq

/-- process_llm_response (protegrity_service.py lines 341-389): a
guardrail scan in the ai_to_user direction sets should_filter on
rejection, then discovery and redaction always run and
processed_response is always the redacted text.  An exception from the
direct discovery call propagates out of the method. -/
def process_llm_response (env : ServiceEnv) (text : List Char) (n : Nat) :
    Except Exc LlmRespResult × Nat :=
  let guardrails := check_guardrails env Direction.aiToUser text
  let shouldFilter := guardrails.outcome = "rejected"
  match discover_entities env text n with
  | (Except.error e, n₁) => (Except.error e, n₁)
  | (Except.ok discovery, n₁) =>
      let r := redact_data env text n₁
      (Except.ok
        { originalResponse := text, processedResponse := r.1.1
          shouldFilter := shouldFilter, guardrails := guardrails
          discovery := discovery, redaction := r.1.2 }, r.2)

/-- A tool record (the Tool model fields that the router reads:
Tool.id, Tool.tool_type, Tool.is_active). -/
structure Tool where
  id : String
  toolType : String
  isActive : Bool
deriving DecidableEq

/-- An LLM provider record (the fields the orchestrator reads). -/
structure LLM where
  id : String
  name : String
deriving DecidableEq

/-- An agent record (the fields the orchestrator and the router read:
name, the tools M2M set in iteration order, and default_llm). -/
structure Agent where
  name : String
  tools : List Tool
  defaultLlm : Option LLM
deriving DecidableEq

/-- One tool call dict from an LLM provider: tool_name, call_id and
arguments keys may each be absent.  Argument values other than strings
never reach modelled behaviour, so values are text. -/
structure ToolCall where
  toolName : Option String
  callId : Option String
  arguments : List (String × List Char)
deriving DecidableEq

/-- The category-specific output record of a protegrity tool dispatch
(tool_router.py lines 163-208) or the unknown-category warning record
(line 109). -/
inductive ToolOutput where
  | redact (redactedText : List Char) (originalLength redactedLength : Nat) (metadata : RedactMeta)
  | classify (entities : Discovery) (entityTypes : List String) (totalEntities : Nat)
      (originalText : List Char)
  | guardrails (result : GuardResult)
  | protect (protectedText : List Char) (success : Bool) (metadata : RedactMeta)
  | warning (msg : List Char)
deriving DecidableEq

/-- One tool result dict: call_id (defaulted to unknown), tool_name, and
exactly one of output or error present. -/
structure ToolResult where
  callId : String
  toolName : Option String
  output : Option ToolOutput
  error : Option (List Char)
deriving DecidableEq

/-- Python str() rendering of an optional name; None renders as the
four-letter word None inside f-strings. -/
def pyStrOpt : Option String → List Char
  | some s => s.toList
  | none => ("None").toList

/-- Error text of tool_router.py line 82. -/
def notFoundMsg (t : Option String) : List Char :=
  ("Tool '").toList ++ pyStrOpt t ++ ("' not found or not authorized for this agent").toList

/-- Error text of tool_router.py line 92. -/
def disabledMsg (t : Option String) : List Char :=
  ("Tool '").toList ++ pyStrOpt t ++ ("' is currently disabled").toList

/-- Warning text of tool_router.py line 109. -/
def notYetMsg (tt : String) : List Char :=
  ("Tool type '").toList ++ tt.toList ++ ("' not yet implemented").toList

/-- Message of the NotImplementedError raised by the protegrity dispatch
for an unrecognized tool id (tool_router.py lines 211-214). -/
def noHandlerMsg (id : String) : List Char :=
  ("No handler defined for Protegrity tool '").toList ++ id.toList
    ++ ("'. Update _execute_protegrity_tool() to add support.").toList

/-- Message of the AttributeError Python raises when the router looks up
unprotect_data on the service instance: ProtegrityService
(protegrity_service.py lines 22-400) defines no such method. -/
def unprotectAttrMsg : List Char :=
  ("'ProtegrityService' object has no attribute 'unprotect_data'").toList

/-- Lookup args.get(k, default-empty) in the arguments dict. -/
def pyGetArg (args : List (String × List Char)) (k : String) : List Char :=
  match args.find? (fun p => p.1 = k) with
  | some p => p.2
  | none => []

/-- Lookup d.get(k) for an optional key; get(None) misses since every
key is a string. -/
def pyGetTool (d : List (String × Tool)) (k : Option String) : Option Tool :=
  match k with
  | none => none
  | some k' =>
      match d.find? (fun p => p.1 = k') with
      | some p => some p.2
      | none => none

/-- The dict comprehension building agent_tools from agent.tools.all()
(tool_router.py line 65). -/
def agentToolsDict (a : Agent) : List (String × Tool) :=
  (a.tools.map (fun t => (t.id, t))).foldl (fun d p => pyInsert d p.1 p.2) []

/-- The function _execute_protegrity_tool (tool_router.py lines
131-214): dispatch by exact tool id into the safety service.  The
protegrity-unprotect arm models the Python attribute lookup
protegrity.unprotect_data, which raises AttributeError because the
service has no such method; the final arm raises NotImplementedError.
The success flag of the protect arm is protected_text is not None,
which is always true of the returned str. -/
def executeProtegrityTool (env : ServiceEnv) (tool : Tool)
    (args : List (String × List Char)) (n : Nat) : Except Exc ToolOutput × Nat :=
  let text := pyGetArg args "text"
  if tool.id = "protegrity-redact" then
    let r := redact_data env text n
    (Except.ok (ToolOutput.redact r.1.1 text.length r.1.1.length r.1.2), r.2)
  else if tool.id = "protegrity-classify" then
    match discover_entities env text n with
    | (Except.error e, n') => (Except.error e, n')
    | (Except.ok entities, n') =>
        (Except.ok (ToolOutput.classify entities (entities.map Prod.fst)
          (entities.foldl (fun a p => a + p.2.length) 0) text), n')
  else if tool.id = "protegrity-guardrails" then
    (Except.ok (ToolOutput.guardrails (check_guardrails env Direction.userToAi text)), n)
  else if tool.id = "protegrity-protect" then
    let r := protect_data env text n
    (Except.ok (ToolOutput.protect r.1.1 true r.1.2), r.2)
  else if tool.id = "protegrity-unprotect" then
    (Except.error (Exc.attrErr unprotectAttrMsg), n)
  else
    (Except.error (Exc.notImpl (noHandlerMsg tool.id)), n)

/-- The per-call loop body of execute_tool_calls (tool_router.py lines
72-126): authorization check, active check, dispatch by tool type with
every exception converted into a per-call error result. -/
def execToolCallsGo (env : ServiceEnv) (agentTools : List (String × Tool)) :
    List ToolCall → Nat → List ToolResult × Nat
  | [], n => ([], n)
  | call :: rest, n =>
      let toolName := call.toolName
      let callId := call.callId.getD "unknown"
      let args := call.arguments
      let step : ToolResult × Nat :=
        match pyGetTool agentTools toolName with
        | none =>
            ({ callId := callId, toolName := toolName, output := none
               error := some (notFoundMsg toolName) }, n)
        | some tool =>
            if !tool.isActive then
              ({ callId := callId, toolName := toolName, output := none
                 error := some (disabledMsg toolName) }, n)
            else if tool.toolType = "protegrity" then
              match executeProtegrityTool env tool args n with
              | (Except.ok out, n') =>
                  ({ callId := callId, toolName := toolName, output := some out
                     error := none }, n')
              | (Except.error e, n') =>
                  ({ callId := callId, toolName := toolName, output := none
                     error := some (excMessage e) }, n')
            else
              ({ callId := callId, toolName := toolName
                 output := some (ToolOutput.warning (notYetMsg tool.toolType))
                 error := none }, n)
      let next := execToolCallsGo env agentTools rest step.2
      (step.1 :: next.1, next.2)

/-- execute_tool_calls (tool_router.py lines 37-128): an empty call list
returns immediately; an absent agent yields an empty authorized set, so
every call fails closed with the not-authorized error. -/
def execute_tool_calls (env : ServiceEnv) (agent : Option Agent)
    (toolCalls : List ToolCall) (n : Nat) : List ToolResult × Nat :=
  if toolCalls.isEmpty then ([], n)
  else
    let agentTools := match agent with
      | some a => agentToolsDict a
      | none => []
    execToolCallsGo env agentTools toolCalls n

/-- A provider result (providers.py lines 26-51).  The constructor
normalises tool_calls None to an empty list, so the field is a plain
list; pending_message_id is advisory and read by no modelled code. -/
structure PResult where
  status : String
  content : Option (List Char)
  toolCalls : List ToolCall
deriving DecidableEq

/-- The protegrity_data JSON attached to a persisted message: either the
input_processing wrapper (orchestrator.py lines 126-128) or the
output_processing wrapper with its optional tool_results key
(orchestrator.py lines 220-224 and 324-328). -/
inductive PData where
  | input (result : PipelineResult)
  | output (result : LlmRespResult) (toolResults : Option (List ToolResult))
deriving DecidableEq

/-- A persisted chat message (the Message fields the orchestrator reads
and writes).  The store assigns primary keys; created messages carry id
0 here and no modelled claim depends on a created id. -/
structure Msg where
  id : Nat
  role : String
  content : List Char
  protegrityData : Option PData
  pending : Bool
  blocked : Bool
  agent : Option Agent
  llmProvider : Option LLM
deriving DecidableEq

/-- A conversation record: its messages in created_at order and the
sticky agent/LLM selection fields. -/
structure Conv where
  messages : List Msg
  primaryAgent : Option Agent
  primaryLlm : Option LLM
  modelId : Option String
deriving DecidableEq

/-- Full environment: the safety-service backends plus the provider
obtained from get_provider, abstracted to the two capabilities the
orchestrator invokes (send_message on a history, poll_response on a
conversation). -/
structure Env extends ServiceEnv where
  send : List Msg → PResult
  pollR : Conv → Option PResult

/-- Append a created message to the conversation. -/
def appendMsg (conv : Conv) (m : Msg) : Conv :=
  { conv with messages := conv.messages ++ [m] }

/-- user_message.save(update_fields=["protegrity_data"]) (orchestrator.py
line 129): the row with the message's key gets the new value. -/
def saveProtegrityData (conv : Conv) (uid : Nat) (pd : PData) : Conv :=
  { conv with
      messages := conv.messages.map (fun m =>
        if m.id = uid then { m with protegrityData := some pd } else m) }

/-- Replace the content of the first message with the given id. -/
def replaceFirstContent : List Msg → Nat → List Char → List Msg
  | [], _, _ => []
  | m :: rest, i, c =>
      if m.id = i then { m with content := c } :: rest
      else m :: replaceFirstContent rest i c

/-- The in-place loop of orchestrator.py lines 177-180: walk the history
in reverse, overwrite the content of the first message whose id matches,
then stop.  The mutation touches only the fetched list, not the store. -/
def replaceLastContent (ms : List Msg) (i : Nat) (c : List Char) : List Msg :=
  (replaceFirstContent ms.reverse i c).reverse

/-- ChatOrchestrator._resolve_agent_and_llm (orchestrator.py lines
54-86): when primary_llm is unset and the agent has a default LLM, adopt
it and persist primary_llm and model_id onto the conversation. -/
def resolveAgentAndLlm (conv : Conv) : Option Agent × Option LLM × Conv :=
  let agent := conv.primaryAgent
  let llm := conv.primaryLlm
  match llm, agent with
  | none, some a =>
      match a.defaultLlm with
      | some d =>
          (agent, some d,
            { conv with primaryLlm := some d, modelId := some d.id })
      | none => (agent, none, conv)
  | _, _ => (agent, llm, conv)

/-- Content of the blocked-input refusal message (orchestrator.py line
138). -/
def blockedInputText : List Char :=
  ("Your message was blocked due to policy violations. Please rephrase and try again.").toList

/-- Content of the missing-LLM error message (orchestrator.py line
159). -/
def noLlmText : List Char :=
  ("Error: No LLM provider configured for this conversation.").toList

/-- Content replacing a filtered response (orchestrator.py lines 229 and
333). -/
def blockedResponseText : List Char :=
  ("This response was blocked due to policy violations.").toList

/-- The tool summary appended to visible content (orchestrator.py lines
211-217 and 315-321). -/
def toolSummary (trs : List ToolResult) : List Char :=
  trs.foldl
    (fun acc tr =>
      acc ++ match tr.error with
        | some e =>
            ("- ❌ ").toList ++ pyStrOpt tr.toolName ++ (": ").toList ++ e ++ ("\n").toList
        | none =>
            ("- ✅ ").toList ++ pyStrOpt tr.toolName ++ (": Success\n").toList)
    (("\n\n---\n**Tools Used:**\n").toList)

/-- The completed-result block of handle_user_message (orchestrator.py
lines 189-245): execute requested tool calls, run output protection on
the content (None degraded to the empty string), append the tool
summary, replace the content and set blocked when should_filter, then
persist the assistant message.  An exception from process_llm_response
propagates (the enclosing transaction rolls the turn back). -/
def handleCompletedSync (env : Env) (agent : Option Agent) (llm : LLM) (conv : Conv)
    (res : PResult) (n : Nat) : Except Exc (Msg × List ToolResult × Conv) × Nat :=
  let tr := if res.toolCalls.isEmpty then ([], n)
            else execute_tool_calls env.toServiceEnv agent res.toolCalls n
  let toolResults := tr.1
  let raw := match res.content with
    | some c => c
    | none => []
  match process_llm_response env.toServiceEnv raw tr.2 with
  | (Except.error e, n') => (Except.error e, n')
  | (Except.ok outR, n') =>
      let safe := if outR.processedResponse.isEmpty then raw else outR.processedResponse
      let safe' := if toolResults.isEmpty then safe else safe ++ toolSummary toolResults
      let pdata := PData.output outR (if toolResults.isEmpty then none else some toolResults)
      let isBlocked := outR.shouldFilter
      let content := if isBlocked then blockedResponseText else safe'
      let m : Msg :=
        { id := 0, role := "assistant", content := content
          protegrityData := some pdata, pending := false, blocked := isBlocked
          agent := agent, llmProvider := some llm }
      (Except.ok (m, toolResults, appendMsg conv m), n')

/-- The completed-result block of poll (orchestrator.py lines 301-349):
the same steps as the synchronous path, written out separately in the
source. -/
def pollCompleted (env : Env) (agent : Option Agent) (llm : LLM) (conv : Conv)
    (res : PResult) (n : Nat) : Except Exc (Msg × List ToolResult × Conv) × Nat :=
  let tr := if res.toolCalls.isEmpty then ([], n)
            else execute_tool_calls env.toServiceEnv agent res.toolCalls n
  let toolResults := tr.1
  let raw := match res.content with
    | some c => c
    | none => []
  match process_llm_response env.toServiceEnv raw tr.2 with
  | (Except.error e, n') => (Except.error e, n')
  | (Except.ok outR, n') =>
      let safe := if outR.processedResponse.isEmpty then raw else outR.processedResponse
      let safe' := if toolResults.isEmpty then safe else safe ++ toolSummary toolResults
      let pdata := PData.output outR (if toolResults.isEmpty then none else some toolResults)
      let isBlocked := outR.shouldFilter
      let content := if isBlocked then blockedResponseText else safe'
      let m : Msg :=
        { id := 0, role := "assistant", content := content
          protegrityData := some pdata, pending := false, blocked := isBlocked
          agent := agent, llmProvider := some llm }
      (Except.ok (m, toolResults, appendMsg conv m), n')

/-- Outcome of one handle_user_message invocation: the returned status,
assistant message and tool results, the final stored conversation, and
the history actually passed to the provider's send_message (none when
the provider was never called). -/
structure TurnOut where
  status : String
  assistantMessage : Option Msg
  toolResults : List ToolResult
  conv : Conv
  sentHistory : Option (List Msg)
deriving DecidableEq

/-- The expression input_result.get(processed_text) or
user_message.content (orchestrator.py line 176): a None or empty
processed text is falsy and falls back to the raw content. -/
def pyTextOr (pt : Option (List Char)) (fallback : List Char) : List Char :=
  match pt with
  | some p => if p.isEmpty then fallback else p
  | none => fallback

/-- The expression protegrity_mode or redact (orchestrator.py line
123): None and the empty string are falsy and fall back to redact. -/
def pyModeOr : Option String → String
  | some s => if s = "" then "redact" else s
  | none => "redact"

/-- ChatOrchestrator.handle_user_message (orchestrator.py lines 88-264).
The protegrity_mode parameter defaults to redact and a falsy value (None
or the empty string) also falls back to redact.  The input pipeline runs
first and its result is saved onto the user message; a blocked input
commits a refusal and stops; an unresolved LLM commits an error message;
otherwise the history is fetched, the user turn's content is swapped for
the processed text (a falsy processed_text falls back to the raw
content), the provider is called, and a completed or pending result is
committed. -/
def handle_user_message (env : Env) (conv : Conv) (um : Msg)
    (protegrityMode : Option String) (n : Nat) : Except Exc TurnOut × Nat :=
  match process_full_pipeline env.toServiceEnv um.content (pyModeOr protegrityMode) n with
  | (Except.error e, n₁) => (Except.error e, n₁)
  | (Except.ok inputResult, n₁) =>
    let conv₁ := saveProtegrityData conv um.id (PData.input inputResult)
    if inputResult.shouldBlock then
      let m : Msg :=
        { id := 0, role := "assistant", content := blockedInputText
          protegrityData := none, pending := false, blocked := true
          agent := conv₁.primaryAgent, llmProvider := conv₁.primaryLlm }
      (Except.ok
        { status := "blocked", assistantMessage := some m, toolResults := []
          conv := appendMsg conv₁ m, sentHistory := none }, n₁)
    else
      match resolveAgentAndLlm conv₁ with
      | (agent, none, conv₂) =>
          let m : Msg :=
            { id := 0, role := "assistant", content := noLlmText
              protegrityData := none, pending := false, blocked := false
              agent := agent, llmProvider := none }
          (Except.ok
            { status := "error", assistantMessage := some m, toolResults := []
              conv := appendMsg conv₂ m, sentHistory := none }, n₁)
      | (agent, some llm, conv₂) =>
          let history := conv₂.messages
          let protectedText := pyTextOr inputResult.processedText um.content
          let sent := replaceLastContent history um.id protectedText
          let res := env.send sent
          if res.status = "completed" then
            match handleCompletedSync env agent llm conv₂ res n₁ with
            | (Except.error e, n₂) => (Except.error e, n₂)
            | (Except.ok (m, toolResults, conv₃), n₂) =>
                (Except.ok
                  { status := res.status, assistantMessage := some m
                    toolResults := toolResults, conv := conv₃
                    sentHistory := some sent }, n₂)
          else if res.status = "pending" then
            let m : Msg :=
              { id := 0, role := "assistant", content := []
                protegrityData := none, pending := true, blocked := false
                agent := agent, llmProvider := some llm }
            (Except.ok
              { status := res.status, assistantMessage := some m, toolResults := []
                conv := appendMsg conv₂ m, sentHistory := some sent }, n₁)
          else
            (Except.ok
              { status := res.status, assistantMessage := none, toolResults := []
                conv := conv₂, sentHistory := some sent }, n₁)

/-- Outcome of one poll invocation. -/
structure PollOut where
  status : String
  assistantMessage : Option Msg
  toolResults : List ToolResult
  conv : Conv
deriving DecidableEq

/-- ChatOrchestrator.poll (orchestrator.py lines 266-355): re-resolve
agent and LLM (the sticky-fallback write included), return an error
status when no LLM resolves, return pending untouched when the provider
result is None or pending, and otherwise run the completed-path steps
and commit the assistant message. -/
def poll (env : Env) (conv : Conv) (n : Nat) : Except Exc PollOut × Nat :=
  match resolveAgentAndLlm conv with
  | (_, none, conv₁) =>
      (Except.ok
        { status := "error", assistantMessage := none, toolResults := []
          conv := conv₁ }, n)
  | (agent, some llm, conv₁) =>
      match env.pollR conv₁ with
      | none =>
          (Except.ok
            { status := "pending", assistantMessage := none, toolResults := []
              conv := conv₁ }, n)
      | some res =>
          if res.status = "pending" then
            (Except.ok
              { status := "pending", assistantMessage := none, toolResults := []
                conv := conv₁ }, n)
          else
            match pollCompleted env agent llm conv₁ res n with
            | (Except.error e, n') => (Except.error e, n')
            | (Except.ok (m, toolResults, conv₂), n') =>
                (Except.ok
                  { status := "completed", assistantMessage := some m
                    toolResults := toolResults, conv := conv₂ }, n')

/-- Per-call shape of the router loop: one result per call, in order,
carrying the call's id (defaulted to unknown) and tool name. -/
theorem execToolCallsGo_map (env : ServiceEnv) (agentTools : List (String × Tool)) :
    ∀ (calls : List ToolCall) (n : Nat),
      (execToolCallsGo env agentTools calls n).1.map (fun r => (r.callId, r.toolName))
        = calls.map (fun c => (c.callId.getD "unknown", c.toolName))
  | [], _ => rfl
  | call :: rest, n => by
      simp only [execToolCallsGo, List.map_cons, List.cons.injEq]
      constructor
      · cases h : pyGetTool agentTools call.toolName with
        | none => simp
        | some tool =>
            by_cases ha : tool.isActive
            · by_cases ht : tool.toolType = "protegrity"
              · cases hx : executeProtegrityTool env tool call.arguments n with
                | mk v n' => cases v <;> simp [ha, ht, hx]
              · simp [ha, ht]
            · simp [ha]
      · exact execToolCallsGo_map env agentTools rest _

/-- C4: for every agent (including absent) and every list of tool calls,
execute_tool_calls returns exactly one result per input call in input
order, each carrying that call's id and tool name, whatever the per-call
outcome is; no failure drops, reorders, or aborts siblings. -/
theorem execute_tool_calls_order_preserving (env : ServiceEnv) (agent : Option Agent)
    (toolCalls : List ToolCall) (n : Nat) :
    (execute_tool_calls env agent toolCalls n).1.map (fun r => (r.callId, r.toolName))
      = toolCalls.map (fun c => (c.callId.getD "unknown", c.toolName)) := by
  cases toolCalls with
  | nil => rfl
  | cons c rest => simp only [execute_tool_calls, List.isEmpty_cons]; simp [execToolCallsGo_map]

/-- C6: the completed-result processing of the polling path is exactly
the completed-result processing of the synchronous path, as a function
of the provider result (and of the agent, model, conversation and
service state): the two duplicated blocks agree on the committed
assistant message, the tool results and the final conversation. -/
theorem poll_path_matches_sync_path (env : Env) (agent : Option Agent) (llm : LLM)
    (conv : Conv) (res : PResult) (n : Nat) :
    handleCompletedSync env agent llm conv res n = pollCompleted env agent llm conv res n := rfl

/-- Discovery advances the invocation counter by exactly one. -/
theorem discover_counter (env : ServiceEnv) (text : List Char) (n : Nat) :
    (discover_entities env text n).2 = n + 1 := by
  unfold discover_entities
  cases env.disc n <;> rfl

/-- Redaction makes exactly one discovery invocation. -/
theorem redact_counter (env : ServiceEnv) (text : List Char) (n : Nat) :
    (redact_data env text n).2 = n + 1 := by
  have hd := discover_counter env text n
  unfold redact_data
  rcases h : discover_entities env text n with ⟨v, n'⟩
  rw [h] at hd
  cases v with
  | error e => exact hd
  | ok entities =>
      dsimp only
      split
      · exact hd
      · exact hd

/-- C10: in the output pass, the guardrail outcome never skips the
protection steps: every run makes a discovery invocation even when it
ends in an exception, a completed run makes exactly the two discovery
invocations (the direct one and the one inside redaction), should_filter
is set exactly on guardrail rejection, and processed_response is always
the redacted text, whatever the guardrail outcome was. -/
theorem output_pass_always_redacts (env : ServiceEnv) (text : List Char) (n : Nat) :
    n + 1 ≤ (process_llm_response env text n).2 ∧
    ∀ r, (process_llm_response env text n).1 = Except.ok r →
      (process_llm_response env text n).2 = n + 2 ∧
      (r.shouldFilter = true ↔ (check_guardrails env Direction.aiToUser text).outcome = "rejected") ∧
      r.processedResponse = (redact_data env text (n + 1)).1.1 := by
  unfold process_llm_response
  cases h : discover_entities env text n with
  | mk v n₁ =>
    have hn₁ : n₁ = n + 1 := by
      have := discover_counter env text n
      rw [h] at this
      exact this
    cases v with
    | error e => simp [hn₁]
    | ok discovery =>
      subst hn₁
      constructor
      · simp [redact_counter]
      · intro r hr
        simp only [Except.ok.injEq] at hr
        subst hr
        simp [redact_counter]

/-- C2 witness helper: the blocked pipeline result at a rejected
outcome. -/
theorem process_full_pipeline_rejected (env : ServiceEnv) (text : List Char) (mode : String)
    (n : Nat) (hrej : (check_guardrails env Direction.userToAi text).outcome = "rejected") :
    process_full_pipeline env text mode n
      = (Except.ok
          { originalText := text, processedText := none, shouldBlock := true
            guardrails := check_guardrails env Direction.userToAi text
            discovery := none, protection := none, redaction := none
            mode := mode }, n) := by
  unfold process_full_pipeline
  simp [hrej]

/-- C2: a pipeline run that returns blocks exactly when the guardrail
risk check rejects; a blocked result carries no processed text and the
run made zero discovery invocations (the counter is unchanged), and a
rejected outcome always returns that blocked result rather than
reaching discovery, protection, or redaction. -/
theorem pipeline_blocks_iff_rejected (env : ServiceEnv) (text : List Char) (mode : String)
    (n : Nat) :
    (∀ r, (process_full_pipeline env text mode n).1 = Except.ok r →
        ((r.shouldBlock = true) ↔ (check_guardrails env Direction.userToAi text).outcome = "rejected")
        ∧ (r.shouldBlock = true →
            r.processedText = none ∧ (process_full_pipeline env text mode n).2 = n))
    ∧ ((check_guardrails env Direction.userToAi text).outcome = "rejected" →
        process_full_pipeline env text mode n
          = (Except.ok
              { originalText := text, processedText := none, shouldBlock := true
                guardrails := check_guardrails env Direction.userToAi text
                discovery := none, protection := none, redaction := none
                mode := mode }, n)) := by
  by_cases hrej : (check_guardrails env Direction.userToAi text).outcome = "rejected"
  · refine ⟨?_, fun _ => process_full_pipeline_rejected env text mode n hrej⟩
    intro r hr
    rw [process_full_pipeline_rejected env text mode n hrej] at hr ⊢
    simp only [Except.ok.injEq] at hr
    subst hr
    simp [hrej]
  · refine ⟨?_, fun h => absurd h hrej⟩
    intro r hr
    unfold process_full_pipeline at hr
    rw [if_neg hrej] at hr
    split at hr
    · simp at hr
    · split at hr
      · injection hr with h
        subst h
        simp [hrej]
      · split at hr
        · injection hr with h
          subst h
          simp [hrej]
        · injection hr with h
          subst h
          simp [hrej]

/-- C9: executing a protegrity-unprotect call through the router always
yields a per-call error result and never an output: the dispatch looks
up a ProtegrityService.unprotect_data method that the service does not
define, and the AttributeError is caught by the router's per-call
handler and returned in the error field. -/
theorem unprotect_tool_always_errors (env : ServiceEnv) (agent : Agent) (call : ToolCall)
    (tool : Tool) (n : Nat)
    (hlook : pyGetTool (agentToolsDict agent) call.toolName = some tool)
    (hid : tool.id = "protegrity-unprotect")
    (htype : tool.toolType = "protegrity")
    (hact : tool.isActive = true) :
    execute_tool_calls env (some agent) [call] n
      = ([{ callId := call.callId.getD "unknown", toolName := call.toolName
            output := none, error := some unprotectAttrMsg }], n) := by
  unfold execute_tool_calls execToolCallsGo
  simp [hlook, hact, htype, executeProtegrityTool, hid, execToolCallsGo, excMessage]

/-- C9 witness instantiation data: a service environment whose guardrail
backend always fails and whose discovery backend always has an API
error. -/
def envA : ServiceEnv :=
  { threshold := 0, guard := fun _ _ => GuardResp.err, disc := fun _ => DOutcome.apiError }

/-- An active protegrity-unprotect tool record. -/
def toolU : Tool := { id := "protegrity-unprotect", toolType := "protegrity", isActive := true }

/-- An agent holding only the unprotect tool. -/
def agentU : Agent := { name := "agent-u", tools := [toolU], defaultLlm := none }

/-- A call to the unprotect tool. -/
def callU : ToolCall :=
  { toolName := some "protegrity-unprotect", callId := some "c1"
    arguments := [("text", ("hello").toList)] }

/-- C9 witness: the theorem applied at a concrete agent, call and
environment. -/
theorem unprotect_tool_always_errors_witness :
    execute_tool_calls envA (some agentU) [callU] 0
      = ([{ callId := "c1", toolName := some "protegrity-unprotect"
            output := none, error := some unprotectAttrMsg }], 0) :=
  unprotect_tool_always_errors envA agentU callU toolU 0 rfl rfl rfl rfl

/-- An active protegrity-category tool whose id has no dispatch arm. -/
def toolX : Tool := { id := "protegrity-custom", toolType := "protegrity", isActive := true }

/-- An agent holding only that unrecognized tool. -/
def agentX : Agent := { name := "agent-x", tools := [toolX], defaultLlm := none }

/-- A call to the unrecognized tool. -/
def callX : ToolCall :=
  { toolName := some "protegrity-custom", callId := some "c1", arguments := [] }

/-- C5 counterexample: for an authorized, active protegrity tool with an
unrecognized id, the dispatch raises its named NotImplementedError, but
execute_tool_calls itself returns normally with that message converted
into the per-call error field: the failure never leaves the router, so
it is not the orchestrator that catches it. -/
theorem unknown_tool_caught_by_router_cex :
    (executeProtegrityTool envA toolX callX.arguments 0).1
        = Except.error (Exc.notImpl (noHandlerMsg "protegrity-custom"))
    ∧ execute_tool_calls envA (some agentX) [callX] 0
        = ([{ callId := "c1", toolName := some "protegrity-custom"
              output := none, error := some (noHandlerMsg "protegrity-custom") }], 0) :=
  ⟨rfl, rfl⟩

/-- C5 amended: an unrecognized identifier within the protegrity
category raises a NotImplementedError out of the dispatch function
(a named failure distinct from the authorization error results), and it
is the router's own per-call exception handler in execute_tool_calls —
not the orchestrator — that catches it and converts it into a per-call
tool error before continuing the batch. -/
theorem unknown_tool_caught_by_router (env : ServiceEnv) (agent : Agent) (call : ToolCall)
    (tool : Tool) (n : Nat)
    (hlook : pyGetTool (agentToolsDict agent) call.toolName = some tool)
    (htype : tool.toolType = "protegrity")
    (hact : tool.isActive = true)
    (hid : tool.id ∉ (["protegrity-redact", "protegrity-classify", "protegrity-guardrails",
        "protegrity-protect", "protegrity-unprotect"] : List String)) :
    executeProtegrityTool env tool call.arguments n
        = (Except.error (Exc.notImpl (noHandlerMsg tool.id)), n)
    ∧ execute_tool_calls env (some agent) [call] n
        = ([{ callId := call.callId.getD "unknown", toolName := call.toolName
              output := none, error := some (noHandlerMsg tool.id) }], n) := by
  simp only [List.mem_cons, List.mem_singleton, not_or] at hid
  obtain ⟨h1, h2, h3, h4, h5⟩ := hid
  have hdisp : executeProtegrityTool env tool call.arguments n
      = (Except.error (Exc.notImpl (noHandlerMsg tool.id)), n) := by
    unfold executeProtegrityTool
    simp [h1, h2, h3, h4, h5]
  refine ⟨hdisp, ?_⟩
  unfold execute_tool_calls execToolCallsGo
  simp [hlook, hact, htype, hdisp, execToolCallsGo, excMessage]

/-- C5 amended witness: the theorem applied at the concrete unrecognized
tool. -/
theorem unknown_tool_caught_by_router_witness :
    executeProtegrityTool envA toolX callX.arguments 0
        = (Except.error (Exc.notImpl (noHandlerMsg "protegrity-custom")), 0)
    ∧ execute_tool_calls envA (some agentX) [callX] 0
        = ([{ callId := "c1", toolName := some "protegrity-custom"
              output := none, error := some (noHandlerMsg "protegrity-custom") }], 0) :=
  unknown_tool_caught_by_router envA agentX callX toolX 0 rfl rfl rfl (by decide)

/-- A service environment whose guardrail backend accepts everything and
whose discovery backend always fails with a handled API error. -/
def envB : ServiceEnv :=
  { threshold := 0, guard := fun _ _ => GuardResp.ok 0, disc := fun _ => DOutcome.apiError }

/-- The sample text of the C7 counterexample. -/
def txtB : List Char := ("hi").toList

/-- C7 counterexample: on a guardrail-accepted text whose discovery
calls fail with the handled API error, the pipeline does return the
original unredacted text without blocking, but the redaction metadata
reports success true, not success false as the claim states. -/
theorem discovery_error_reports_success_cex :
    envB.disc 0 = DOutcome.apiError
    ∧ (check_guardrails envB Direction.userToAi txtB).outcome = "accepted"
    ∧ process_full_pipeline envB txtB "redact" 0
        = (Except.ok
            { originalText := txtB, processedText := some txtB, shouldBlock := false
              guardrails := { outcome := "accepted", riskScore := 0 }
              discovery := some [], protection := none
              redaction := some
                { success := true, entitiesFound := 0, entities := none, error := none }
              mode := "redact" }, 2) :=
  ⟨rfl, rfl, rfl⟩

/-- C7 amended: on a text the guardrail check does not reject, the
redact-mode pipeline never blocks on downstream failures; when the
redaction step fails with an exception (the discovery call inside
redact_data raises), it falls back to the original unredacted text with
success false in the redaction metadata; when discovery fails with the
handled API error, it likewise returns the original text unblocked, but
with an empty discovery and success true in the redaction metadata. -/
theorem pipeline_fail_open (env : ServiceEnv) (text : List Char) (n : Nat)
    (hacc : (check_guardrails env Direction.userToAi text).outcome ≠ "rejected") :
    (∀ cls m, env.disc n = DOutcome.ok cls → env.disc (n + 1) = DOutcome.raiseE m →
        process_full_pipeline env text "redact" n
          = (Except.ok
              { originalText := text, processedText := some text, shouldBlock := false
                guardrails := check_guardrails env Direction.userToAi text
                discovery := some (transformCls text cls), protection := none
                redaction := some
                  { success := false, entitiesFound := 0, entities := none, error := some m }
                mode := "redact" }, n + 2))
    ∧ (env.disc n = DOutcome.apiError → env.disc (n + 1) = DOutcome.apiError →
        process_full_pipeline env text "redact" n
          = (Except.ok
              { originalText := text, processedText := some text, shouldBlock := false
                guardrails := check_guardrails env Direction.userToAi text
                discovery := some [], protection := none
                redaction := some
                  { success := true, entitiesFound := 0, entities := none, error := none }
                mode := "redact" }, n + 2)) := by
  constructor
  · intro cls m hd1 hd2
    unfold process_full_pipeline
    rw [if_neg hacc]
    simp [discover_entities, hd1, hd2, redact_data, excMessage]
  · intro hd1 hd2
    unfold process_full_pipeline
    rw [if_neg hacc]
    simp [discover_entities, hd1, hd2, redact_data]

/-- A service environment whose discovery backend answers the first call
and raises on every later one. -/
def envC : ServiceEnv :=
  { threshold := 0, guard := fun _ _ => GuardResp.ok 0
    disc := fun k => if k = 0 then DOutcome.ok [] else DOutcome.raiseE (("boom").toList) }

/-- C7 amended witness: both fail-open branches applied at concrete
environments. -/
theorem pipeline_fail_open_witness :
    process_full_pipeline envC txtB "redact" 0
        = (Except.ok
            { originalText := txtB, processedText := some txtB, shouldBlock := false
              guardrails := check_guardrails envC Direction.userToAi txtB
              discovery := some (transformCls txtB []), protection := none
              redaction := some
                { success := false, entitiesFound := 0, entities := none
                  error := some (("boom").toList) }
              mode := "redact" }, 2)
    ∧ process_full_pipeline envB txtB "redact" 0
        = (Except.ok
            { originalText := txtB, processedText := some txtB, shouldBlock := false
              guardrails := check_guardrails envB Direction.userToAi txtB
              discovery := some [], protection := none
              redaction := some
                { success := true, entitiesFound := 0, entities := none, error := none }
              mode := "redact" }, 2) :=
  ⟨(pipeline_fail_open envC txtB 0 (by decide)).1 [] (("boom").toList) rfl rfl,
   (pipeline_fail_open envB txtB 0 (by decide)).2 rfl rfl⟩

/-- A concrete LLM record. -/
def llmA : LLM := { id := "llm-1", name := "LLM One" }

/-- An agent whose default LLM is llmA. -/
def agentB : Agent := { name := "agent-b", tools := [], defaultLlm := some llmA }

/-- A conversation with that agent and no primary LLM selected. -/
def convPend : Conv :=
  { messages := [], primaryAgent := some agentB, primaryLlm := none, modelId := none }

/-- A full environment whose provider never resolves a poll. -/
def envPend : Env :=
  { threshold := 0, guard := fun _ _ => GuardResp.err, disc := fun _ => DOutcome.apiError
    send := fun _ => { status := "completed", content := none, toolCalls := [] }
    pollR := fun _ => none }

/-- C8 counterexample: polling a conversation whose provider has not
resolved does return pending and appends no message, but it is not free
of stored-state changes: the first poll adopts the agent's default LLM
onto the conversation (primary_llm and model_id change from None). -/
theorem poll_pending_mutates_conversation_cex :
    poll envPend convPend 0
      = (Except.ok
          { status := "pending", assistantMessage := none, toolResults := []
            conv := { messages := [], primaryAgent := some agentB
                      primaryLlm := some llmA, modelId := some "llm-1" } }, 0)
    ∧ convPend.primaryLlm = none :=
  ⟨rfl, rfl⟩

/-- C8 amended: when the provider's poll_response returns None or a
pending result, poll returns pending, appends no message, and the only
stored-state change is the one-time sticky adoption of the agent's
default LLM performed by agent/LLM resolution; resolution is idempotent,
so a repeated poll on the updated conversation returns pending again
with no state change at all. -/
theorem poll_pending_idempotent (env : Env) (conv : Conv) (n : Nat)
    (agent : Option Agent) (llm : LLM) (conv₁ : Conv)
    (hres : resolveAgentAndLlm conv = (agent, some llm, conv₁))
    (hpend : env.pollR conv₁ = none
      ∨ ∃ res, env.pollR conv₁ = some res ∧ res.status = "pending") :
    poll env conv n
        = (Except.ok
            { status := "pending", assistantMessage := none, toolResults := []
              conv := conv₁ }, n)
    ∧ conv₁.messages = conv.messages
    ∧ resolveAgentAndLlm conv₁ = (agent, some llm, conv₁)
    ∧ poll env conv₁ n
        = (Except.ok
            { status := "pending", assistantMessage := none, toolResults := []
              conv := conv₁ }, n) := by
  have hstruct : conv₁.messages = conv.messages
      ∧ conv₁.primaryAgent = agent ∧ conv₁.primaryLlm = some llm := by
    unfold resolveAgentAndLlm at hres
    cases hl : conv.primaryLlm with
    | some l =>
        rw [hl] at hres
        simp only [Prod.mk.injEq] at hres
        obtain ⟨ha, hl2, hc⟩ := hres
        subst hc
        exact ⟨rfl, by simp [ha], by simp [hl, hl2]⟩
    | none =>
        rw [hl] at hres
        cases hag : conv.primaryAgent with
        | none =>
            rw [hag] at hres
            simp at hres
        | some a =>
            rw [hag] at hres
            cases hd : a.defaultLlm with
            | none => simp [hd] at hres
            | some d =>
                simp only [hd, Prod.mk.injEq] at hres
                obtain ⟨ha, hl2, hc⟩ := hres
                subst hc
                exact ⟨rfl, by simp [hag, ha], by simp [hl2]⟩
  obtain ⟨hmsgs, hagent, hllm⟩ := hstruct
  have hres₁ : resolveAgentAndLlm conv₁ = (agent, some llm, conv₁) := by
    unfold resolveAgentAndLlm
    rw [hllm, hagent]
  have hpoll₁ : poll env conv₁ n
      = (Except.ok
          { status := "pending", assistantMessage := none, toolResults := []
            conv := conv₁ }, n) := by
    rcases hpend with h | ⟨res, h, hst⟩
    · simp only [poll, hres₁, h]
    · simp only [poll, hres₁, h, if_pos hst]
  have hpoll₀ : poll env conv n
      = (Except.ok
          { status := "pending", assistantMessage := none, toolResults := []
            conv := conv₁ }, n) := by
    rcases hpend with h | ⟨res, h, hst⟩
    · simp only [poll, hres, h]
    · simp only [poll, hres, h, if_pos hst]
  exact ⟨hpoll₀, hmsgs, hres₁, hpoll₁⟩

/-- C8 amended witness: the theorem applied at the concrete pending
environment and unresolved conversation. -/
theorem poll_pending_idempotent_witness :
    poll envPend convPend 0
        = (Except.ok
            { status := "pending", assistantMessage := none, toolResults := []
              conv := { messages := [], primaryAgent := some agentB
                        primaryLlm := some llmA, modelId := some "llm-1" } }, 0)
    ∧ poll envPend
          { messages := [], primaryAgent := some agentB
            primaryLlm := some llmA, modelId := some "llm-1" } 0
        = (Except.ok
            { status := "pending", assistantMessage := none, toolResults := []
              conv := { messages := [], primaryAgent := some agentB
                        primaryLlm := some llmA, modelId := some "llm-1" } }, 0) := by
  have h := poll_pending_idempotent envPend convPend 0 (some agentB) llmA
    { messages := [], primaryAgent := some agentB
      primaryLlm := some llmA, modelId := some "llm-1" } rfl (Or.inl rfl)
  exact ⟨h.1, h.2.2.2⟩

instance : IsTotal Repl replGE :=
  ⟨fun a b => Nat.le_total b.start a.start⟩

instance : IsTrans Repl replGE :=
  ⟨fun _ _ _ hab hbc => Nat.le_trans hbc hab⟩

/-- C3: when discovery finds spans, the redacted output is the
substitution of every discovered span, applied in an order that is
exactly decreasing by start offset (a permutation of the span list,
pairwise sorted by descending start), with each span replaced by its
bracketed entity-type placeholder; moreover one substitution step leaves
every offset below its start unchanged, so earlier offsets remain valid
while later replacements are applied first. -/
theorem redact_back_to_front (env : ServiceEnv) (text : List Char) (n : Nat)
    (cls : List (String × List RawDet))
    (hdisc : env.disc n = DOutcome.ok cls)
    (hne : transformCls text cls ≠ []) :
    (∃ L : List Repl,
        List.Perm L (flattenRepls (transformCls text cls))
        ∧ List.Pairwise replGE L
        ∧ (redact_data env text n).1.1 = List.foldl substOne text L)
    ∧ (∀ (t : List Char) (r : Repl) (k : Nat), k ≤ r.start → r.start ≤ t.length →
        (substOne t r).take k = t.take k) := by
  constructor
  · have hie : (transformCls text cls).isEmpty = false := by
      cases h : transformCls text cls with
      | nil => exact absurd h hne
      | cons a l => rfl
    refine ⟨List.insertionSort replGE (flattenRepls (transformCls text cls)),
      List.perm_insertionSort _ _, List.sorted_insertionSort _ _, ?_⟩
    simp [redact_data, discover_entities, hdisc, hie]
  · intro t r k hk hstart
    unfold substOne
    rw [List.append_assoc, List.take_append_of_le_length, List.take_take,
      Nat.min_eq_left hk]
    rw [List.length_take]
    exact le_min hk (Nat.le_trans hk hstart)

/-- A service environment whose discovery backend reports one US_SSN
span. -/
def envD : ServiceEnv :=
  { threshold := 0, guard := fun _ _ => GuardResp.ok 0
    disc := fun _ =>
      DOutcome.ok [("US_SSN", [{ score := 1, startIndex := 10, endIndex := 21 }])] }

/-- The sample text carrying an SSN at offsets 10 to 21. -/
def txtD : List Char := ("My SSN is 123-45-6789").toList

/-- C3 witness: the theorem applied at the concrete SSN detection. -/
theorem redact_back_to_front_witness :
    (∃ L : List Repl,
        List.Perm L (flattenRepls (transformCls txtD
          [("US_SSN", [{ score := 1, startIndex := 10, endIndex := 21 }])]))
        ∧ List.Pairwise replGE L
        ∧ (redact_data envD txtD 0).1.1 = List.foldl substOne txtD L)
    ∧ (∀ (t : List Char) (r : Repl) (k : Nat), k ≤ r.start → r.start ≤ t.length →
        (substOne t r).take k = t.take k) :=
  redact_back_to_front envD txtD 0
    [("US_SSN", [{ score := 1, startIndex := 10, endIndex := 21 }])] rfl (by decide)

/-- A single substitution step produces a nonempty text. -/
theorem substOne_ne_nil (t : List Char) (r : Repl) : substOne t r ≠ [] := by
  unfold substOne
  simp

/-- Folding at least one substitution step produces a nonempty text. -/
theorem foldl_substOne_ne_nil :
    ∀ (L : List Repl) (t : List Char), L ≠ [] → L.foldl substOne t ≠ []
  | [], _, h => absurd rfl h
  | [r], t, _ => substOne_ne_nil t r
  | r :: r' :: rest, t, _ =>
      foldl_substOne_ne_nil (r' :: rest) (substOne t r) (by simp)

/-- Redaction returns the empty text only on empty input. -/
theorem redact_empty_output (env : ServiceEnv) (text : List Char) (n : Nat)
    (h : (redact_data env text n).1.1 = []) : text = [] := by
  unfold redact_data at h
  rcases hd : discover_entities env text n with ⟨v, n'⟩
  rw [hd] at h
  cases v with
  | error e => exact h
  | ok entities =>
      dsimp only at h
      split at h
      · exact h
      · by_cases hs : List.insertionSort replGE (flattenRepls entities) = []
        · rw [hs] at h
          exact h
        · exact absurd h (foldl_substOne_ne_nil _ text hs)

/-- An unblocked pipeline result always carries a processed text, and
that text is empty only when the input was empty. -/
theorem pipeline_processed_some (env : ServiceEnv) (text : List Char) (mode : String)
    (n : Nat) (r : PipelineResult) (n' : Nat)
    (hp : process_full_pipeline env text mode n = (Except.ok r, n'))
    (hnb : r.shouldBlock = false) :
    ∃ p, r.processedText = some p ∧ (p = [] → text = []) := by
  by_cases hrej : (check_guardrails env Direction.userToAi text).outcome = "rejected"
  · rw [process_full_pipeline_rejected env text mode n hrej] at hp
    simp only [Prod.mk.injEq, Except.ok.injEq] at hp
    rw [← hp.1] at hnb
    simp at hnb
  · unfold process_full_pipeline at hp
    rw [if_neg hrej] at hp
    rcases hd : discover_entities env text n with ⟨v, n₁⟩
    rw [hd] at hp
    cases v with
    | error e => simp at hp
    | ok entities =>
        dsimp only at hp
        by_cases hm1 : mode = "protect"
        · rw [if_pos hm1] at hp
          simp only [Prod.mk.injEq, Except.ok.injEq] at hp
          obtain ⟨hr, -⟩ := hp
          subst hr
          refine ⟨_, rfl, ?_⟩
          intro hq
          by_cases he : (protect_data env text n₁).1.1.isEmpty = true
          · rw [if_pos he] at hq
            exact hq
          · rw [if_neg he] at hq
            exact redact_empty_output env text n₁ hq
        · rw [if_neg hm1] at hp
          by_cases hm2 : mode = "redact"
          · rw [if_pos hm2] at hp
            simp only [Prod.mk.injEq, Except.ok.injEq] at hp
            obtain ⟨hr, -⟩ := hp
            subst hr
            exact ⟨_, rfl, fun hq => redact_empty_output env text n₁ hq⟩
          · rw [if_neg hm2] at hp
            simp only [Prod.mk.injEq, Except.ok.injEq] at hp
            obtain ⟨hr, -⟩ := hp
            subst hr
            exact ⟨_, rfl, fun hq => hq⟩

/-- Saving the input pipeline result touches only the user message when
its id is unique. -/
theorem saveProtegrityData_append (conv : Conv) (pre : List Msg) (um : Msg) (pd : PData)
    (hmsgs : conv.messages = pre ++ [um]) (hids : ∀ m ∈ pre, m.id ≠ um.id) :
    (saveProtegrityData conv um.id pd).messages
      = pre ++ [{ um with protegrityData := some pd }] := by
  unfold saveProtegrityData
  dsimp only
  rw [hmsgs, List.map_append]
  congr 1
  · have h : ∀ m ∈ pre,
        (if m.id = um.id then { m with protegrityData := some pd } else m) = id m :=
      fun m hm => if_neg (hids m hm)
    rw [List.map_congr_left h, List.map_id]
  · simp

/-- Agent and LLM resolution never touches the message list. -/
theorem resolve_messages (conv : Conv) :
    (resolveAgentAndLlm conv).2.2.messages = conv.messages := by
  obtain ⟨msgs, pa, pl, mid⟩ := conv
  cases pl with
  | none =>
      cases pa with
      | none => rfl
      | some a => rcases hd : a.defaultLlm with _ | d <;> simp [resolveAgentAndLlm, hd]
  | some l => rfl

/-- Replacing by the id of the last element rewrites exactly that
element. -/
theorem replaceLastContent_append (pre : List Msg) (um : Msg) (i : Nat) (c : List Char)
    (hid : um.id = i) :
    replaceLastContent (pre ++ [um]) i c = pre ++ [{ um with content := c }] := by
  unfold replaceLastContent
  rw [List.reverse_append]
  simp [replaceFirstContent, hid]

/-- C1: when the input safety pass does not block and the turn's
processing succeeds, the history handed to the provider's send_message
carries the user turn with its content replaced by the pipeline's
processed (redacted) text — the raw original only ever coincides with
what is sent when it is itself the processed text. -/
theorem provider_gets_processed_text (env : Env) (conv : Conv) (um : Msg)
    (mode : Option String) (n : Nat) (pre : List Msg)
    (hmsgs : conv.messages = pre ++ [um])
    (hids : ∀ m ∈ pre, m.id ≠ um.id)
    (ir : PipelineResult) (n₁ : Nat)
    (hpipe : process_full_pipeline env.toServiceEnv um.content (pyModeOr mode) n
      = (Except.ok ir, n₁))
    (hnb : ir.shouldBlock = false)
    (tr : TurnOut) (n' : Nat)
    (hrun : handle_user_message env conv um mode n = (Except.ok tr, n'))
    (hsent : tr.sentHistory ≠ none) :
    ∃ p, ir.processedText = some p
      ∧ tr.sentHistory
          = some (pre
              ++ [{ um with protegrityData := some (PData.input ir), content := p }]) := by
  obtain ⟨p, hps, hpnil⟩ :=
    pipeline_processed_some env.toServiceEnv um.content (pyModeOr mode) n ir n₁ hpipe hnb
  have hpt : pyTextOr ir.processedText um.content = p := by
    rw [hps]
    show (if p.isEmpty = true then um.content else p) = p
    by_cases hq : p.isEmpty = true
    · have hp0 : p = [] := by
        cases p with
        | nil => rfl
        | cons a l => simp at hq
      rw [if_pos hq, hp0, hpnil hp0]
    · rw [if_neg hq]
  have hsave : (saveProtegrityData conv um.id (PData.input ir)).messages
      = pre ++ [{ um with protegrityData := some (PData.input ir) }] :=
    saveProtegrityData_append conv pre um _ hmsgs hids
  unfold handle_user_message at hrun
  split at hrun
  · rename_i e n₁' heq
    rw [hpipe] at heq
    simp at heq
  · rename_i inputResult n₁' heq
    rw [hpipe] at heq
    simp only [Prod.mk.injEq, Except.ok.injEq] at heq
    obtain ⟨hir, hn₁⟩ := heq
    subst hir
    subst hn₁
    rw [if_neg (by simp [hnb])] at hrun
    split at hrun
    · rename_i agent conv₂ heq₂
      simp only [Prod.mk.injEq, Except.ok.injEq] at hrun
      rw [← hrun.1] at hsent
      simp at hsent
    · rename_i agent llm conv₂ heq₂
      have hconv₂ : conv₂.messages
          = pre ++ [{ um with protegrityData := some (PData.input ir) }] := by
        have h := resolve_messages (saveProtegrityData conv um.id (PData.input ir))
        rw [heq₂] at h
        rw [h, hsave]
      have hsentEq : replaceLastContent conv₂.messages um.id
            (pyTextOr ir.processedText um.content)
          = pre ++ [{ um with protegrityData := some (PData.input ir), content := p }] := by
        rw [hconv₂, hpt, replaceLastContent_append pre
          { um with protegrityData := some (PData.input ir) } um.id p rfl]
      dsimp only at hrun
      split at hrun
      · split at hrun
        · simp at hrun
        · rename_i heq₃
          simp only [Prod.mk.injEq, Except.ok.injEq] at hrun
          obtain ⟨htr, -⟩ := hrun
          subst htr
          exact ⟨p, hps, by rw [← hsentEq]⟩
      · split at hrun
        · simp only [Prod.mk.injEq, Except.ok.injEq] at hrun
          obtain ⟨htr, -⟩ := hrun
          subst htr
          exact ⟨p, hps, by rw [← hsentEq]⟩
        · simp only [Prod.mk.injEq, Except.ok.injEq] at hrun
          obtain ⟨htr, -⟩ := hrun
          subst htr
          exact ⟨p, hps, by rw [← hsentEq]⟩

/-- The input pipeline result of the C1 witness run. -/
def irW : PipelineResult :=
  { originalText := ("hi").toList, processedText := some (("hi").toList)
    shouldBlock := false
    guardrails := { outcome := "accepted", riskScore := 0 }
    discovery := some [], protection := none
    redaction := some { success := true, entitiesFound := 0, entities := none, error := none }
    mode := "redact" }

/-- The user message of the C1 witness run. -/
def umW : Msg :=
  { id := 1, role := "user", content := ("hi").toList, protegrityData := none
    pending := false, blocked := false, agent := none, llmProvider := none }

/-- The conversation of the C1 witness run. -/
def convW : Conv :=
  { messages := [umW], primaryAgent := none, primaryLlm := some llmA
    modelId := some "llm-1" }

/-- The environment of the C1 witness run: accepting guardrails,
error-free empty discovery, a provider that answers pending. -/
def envW : Env :=
  { threshold := 0, guard := fun _ _ => GuardResp.ok 0, disc := fun _ => DOutcome.apiError
    send := fun _ => { status := "pending", content := none, toolCalls := [] }
    pollR := fun _ => none }

/-- The turn outcome of the C1 witness run. -/
def trW : TurnOut :=
  { status := "pending"
    assistantMessage := some
      { id := 0, role := "assistant", content := [], protegrityData := none
        pending := true, blocked := false, agent := none, llmProvider := some llmA }
    toolResults := []
    conv :=
      { messages :=
          [{ umW with protegrityData := some (PData.input irW) },
           { id := 0, role := "assistant", content := [], protegrityData := none
             pending := true, blocked := false, agent := none, llmProvider := some llmA }]
        primaryAgent := none, primaryLlm := some llmA, modelId := some "llm-1" }
    sentHistory := some [{ umW with protegrityData := some (PData.input irW) }] }

/-- C1 witness: the theorem applied at the concrete run. -/
theorem provider_gets_processed_text_witness :
    ∃ p, irW.processedText = some p
      ∧ trW.sentHistory
          = some ([]
              ++ [{ umW with protegrityData := some (PData.input irW), content := p }]) :=
  provider_gets_processed_text envW convW umW none 0 [] rfl (by simp) irW 2 rfl rfl
    trW 2 rfl (by decide)

/-- A service environment whose guardrail backend reports full risk, so
every text is rejected against threshold zero. -/
def envR : ServiceEnv :=
  { threshold := 0, guard := fun _ _ => GuardResp.ok 1, disc := fun _ => DOutcome.apiError }

/-- The blocked pipeline result of the C2 witness. -/
def blockedRecR : PipelineResult :=
  { originalText := txtB, processedText := none, shouldBlock := true
    guardrails := check_guardrails envR Direction.userToAi txtB
    discovery := none, protection := none, redaction := none, mode := "redact" }

/-- C2 witness: the theorem applied at a concrete rejecting environment;
the rejected text is blocked with no processed text and an unchanged
discovery counter. -/
theorem pipeline_blocks_iff_rejected_witness :
    process_full_pipeline envR txtB "redact" 0 = (Except.ok blockedRecR, 0)
    ∧ (blockedRecR.shouldBlock = true
        ↔ (check_guardrails envR Direction.userToAi txtB).outcome = "rejected") :=
  ⟨(pipeline_blocks_iff_rejected envR txtB "redact" 0).2 (by decide),
   ((pipeline_blocks_iff_rejected envR txtB "redact" 0).1 blockedRecR rfl).1⟩

/-- The output-pass result of the C10 witness. -/
def respW : LlmRespResult :=
  { originalResponse := txtB, processedResponse := txtB, shouldFilter := false
    guardrails := { outcome := "accepted", riskScore := 0 }
    discovery := []
    redaction := { success := true, entitiesFound := 0, entities := none, error := none } }

/-- C10 witness: the theorem applied at a concrete accepting
environment. -/
theorem output_pass_always_redacts_witness :
    0 + 1 ≤ (process_llm_response envB txtB 0).2
    ∧ ((process_llm_response envB txtB 0).2 = 0 + 2
        ∧ (respW.shouldFilter = true
            ↔ (check_guardrails envB Direction.aiToUser txtB).outcome = "rejected")
        ∧ respW.processedResponse = (redact_data envB txtB (0 + 1)).1.1) :=
  ⟨(output_pass_always_redacts envB txtB 0).1,
   (output_pass_always_redacts envB txtB 0).2 respW rfl⟩
